import Mathlib

/-
Shallow embedding of the MIDI-to-embedding upsampling engine of
`wavenet/lc_audio_reader.py` (class `MidiMapper`) together with the two
length-alignment snippets of `LCAudioReader.input_stream`.

Modelling conventions:
* The source runs under Python-2 integer semantics (the `midi` package is
  Python-2 only): `/` on two ints is floor division.  Machine integers are
  modelled as `Nat` (all quantities in the relevant code paths are
  non-negative); floor division by a possibly-zero divisor is modelled by
  `pydiv`, which returns `none` exactly where Python raises
  `ZeroDivisionError`.
* Run-time exceptions (`IndexError` from a list or numpy access out of
  range, `ZeroDivisionError`) are modelled as `Option.none` propagating
  outward; `some` is a normal return.
* The mutable `MidiMapper` object state is passed explicitly as a `Mapper`
  value; `upsample` returns the new state together with its result.
* The `print` warning in the EndOfTrack branch of `upsample` is the one
  observable diagnostic; it is modelled as a `Bool` in the result.
* Both recursive scans (`update_midi_metadata`'s search for the first
  NoteOn, and `upsample`'s event loop) advance their track index by one on
  every step and fail with an index error once the index passes the end of
  the track, so `track.length + 1` steps of fuel always suffice; the
  fuel-exhaustion branch is unreachable for the wrappers used below.
-/

/-- Embedding vector: one entry (0 or 1 in the source, a float32) per local
conditioning channel. -/
abbrev Emb := List Nat

/-- Zero embedding, `np.zeros(shape = (channels))`. -/
def zeroEmb (channels : Nat) : Emb := List.replicate channels 0

/-- Events of the first MIDI track, as consumed by `MidiMapper`: each carries
its tick delta; NoteOn/NoteOff carry `data[0]` (the note id), SetTempo carries
its three data bytes. Events of any other kind are `other`. -/
inductive MidiEvent where
  | noteOn (tick noteId : Nat)
  | noteOff (tick noteId : Nat)
  | setTempo (tick d0 d1 d2 : Nat)
  | endOfTrack (tick : Nat)
  | other (tick : Nat)
deriving DecidableEq, Repr

/-- Tick delta (`curr_event.tick`) of an event. -/
def MidiEvent.tick : MidiEvent → Nat
  | .noteOn t _ => t
  | .noteOff t _ => t
  | .setTempo t _ _ _ => t
  | .endOfTrack t => t
  | .other t => t

/-- Whether an event is a NoteOn event. -/
def MidiEvent.isNoteOn : MidiEvent → Bool
  | .noteOn _ _ => true
  | _ => false

/-- Parsed MIDI pattern (the output of `midi.read_midifile`): a resolution
(PPQN) and a list of tracks, each a list of events. The source only ever uses
`self.midi[0]`, the first track. -/
structure MidiPattern where
  resolution : Nat
  tracks : List (List MidiEvent)
deriving DecidableEq, Repr

/-- Python-2 integer division `a / b`: floor division, raising
`ZeroDivisionError` (modelled as `none`) when `b = 0`. -/
def pydiv (a b : Nat) : Option Nat :=
  if b = 0 then none else some (a / b)

/-- Number of binary digits of `n` (0 for 0), computed with explicit fuel
(`n` itself always suffices, since the bit count of a positive `n` is at
most `n`). -/
def bitLen : Nat → Nat → Nat
  | 0, _ => 0
  | fuel + 1, n => if n = 0 then 0 else bitLen fuel (n / 2) + 1

/-- Length of `format(x, '08b')`: the binary representation of `x`
zero-padded on the left to at least 8 characters. -/
def bitsLen (x : Nat) : Nat := max 8 (bitLen x x)

/-- Value of `int(format(d0,'08b') + format(d1,'08b') + format(d2,'08b'), 2)`:
the three data bytes of a SetTempo event concatenated as binary strings and
read back as a number (microseconds per beat). For bytes below 256 this is
`d0 * 65536 + d1 * 256 + d2`. -/
def tempoOfBytes (d0 d1 d2 : Nat) : Nat :=
  (d0 * 2 ^ bitsLen d1 + d1) * 2 ^ bitsLen d2 + d2

/-- `MidiMapper.sample_to_microseconds`: `(int(1e6) / sample_rate) * sample_num`
under integer floor division; fails when `sample_rate = 0`. -/
def sample_to_microseconds (sample_rate sample_num : Nat) : Option Nat :=
  (pydiv 1000000 sample_rate).map (fun c => c * sample_num)

/-- `MidiMapper.tick_delta_to_microseconds`: `(tempo * delta_ticks) / PPQN`
under integer floor division; fails when `PPQN = 0`. -/
def tick_delta_to_microseconds (tempo PPQN delta_ticks : Nat) : Option Nat :=
  pydiv (tempo * delta_ticks) PPQN

/-- Explicit state of a `MidiMapper` instance: constructor parameters,
the metadata set by `set_midi`/`update_midi_metadata`, the saved track
pointer, and the contents of the internal `mapper_lc_q` queue (front of the
list = front of the FIFO queue). -/
structure Mapper where
  sample_rate : Nat
  lc_channels : Nat
  tempo : Nat
  PPQN : Nat
  first_note_index : Nat
  q : List Emb
  midi : MidiPattern
deriving DecidableEq, Repr

/-- State of a freshly constructed `MidiMapper(sample_rate, lc_channels)`.
The source initialises `tempo`, `PPQN`, `first_note_index` and `midi` to
`None`; any use before `set_midi` raises. Numeric fields are modelled as 0
and the unset pattern as an empty pattern, on which `upsample` and
`set_midi` fail (as the `None` accesses would). -/
def MidiMapper.init (sample_rate lc_channels : Nat) : Mapper :=
  { sample_rate := sample_rate
    lc_channels := lc_channels
    tempo := 0
    PPQN := 0
    first_note_index := 0
    q := []
    midi := { resolution := 0, tracks := [] } }

/-- Scanning loop of `MidiMapper.update_midi_metadata`: starting at index `i`
of the first track, walk forward while the event is not a NoteOn, recording
the tempo of every SetTempo event passed over; return the last such tempo (if
any) and the index of the first NoteOn. Reading past the end of the track is
an `IndexError` (`none`). `fuel` bounds the recursion; `track.length + 1`
always suffices from `i = 0`. -/
def update_midi_metadata_scan : Nat → List MidiEvent → Nat → Option Nat → Option (Nat × Nat)
  | 0, _, _, _ => none
  | fuel + 1, track, i, tacc =>
    match track.get? i with
    | none => none
    | some (.noteOn _ _) => some (tacc.getD 500000, i)
    | some (.setTempo _ d0 d1 d2) =>
        update_midi_metadata_scan fuel track (i + 1) (some (tempoOfBytes d0 d1 d2))
    | some _ => update_midi_metadata_scan fuel track (i + 1) tacc

/-- `MidiMapper.set_midi` followed by `update_midi_metadata`: store the
pattern, take its first track (`self.midi[0]`, raising when there is none),
scan for the initial tempo (default 500000 microseconds per beat) and the
index of the first NoteOn event, and record the pattern resolution as
`PPQN`. No validation of tempo or resolution values is performed. -/
def MidiMapper.set_midi (m : Mapper) (p : MidiPattern) : Option Mapper :=
  match p.tracks.get? 0 with
  | none => none
  | some track =>
    match update_midi_metadata_scan (track.length + 1) track 0 none with
    | none => none
    | some (tempo, idx) =>
        some { m with
                midi := p
                tempo := tempo
                PPQN := p.resolution
                first_note_index := idx }

/-- Setting entry `i` of a numpy vector to 1: `embedding[i] = 1`, an
`IndexError` (`none`) when `i` is out of range. -/
def setIdx (l : Emb) (i : Nat) : Option Emb :=
  if i < l.length then some (l.set i 1) else none

/-- Order in which the inner loop of `enq_embeddings` reads `note_state`:
`note_state[j - 1]` for `j in range(len(note_state))`, i.e. the Python
negative index `-1` (the last element) first, then elements `0` through
`len - 2`. -/
def pyRotate (l : List Nat) : List Nat :=
  match l.getLast? with
  | none => []
  | some x => x :: l.dropLast

/-- Construction of one embedding inside `enq_embeddings`: start from
`np.zeros(shape = (lc_channels))` and run
`for j in range(len(note_state)): embedding[note_state[j - 1]] = 1`,
propagating the `IndexError` raised by an out-of-range note id. -/
def mk_embedding (note_state : List Nat) (channels : Nat) : Option Emb :=
  (pyRotate note_state).foldlM setIdx (zeroEmb channels)

/-- `MidiMapper.enq_embeddings`: convert `delta_ticks` to microseconds at the
current tempo, compute `num_embeddings = upsample_time * sample_rate / 1000000`
(floor), and run `for i in range(num_embeddings - 1)`, each iteration building
one embedding from `note_state` and putting it on the queue. With zero loop
iterations the queue is returned unchanged (and no embedding is ever built,
so an out-of-range id goes unnoticed); otherwise the first iteration's
embedding construction may raise. -/
def enq_embeddings (tempo PPQN sample_rate channels delta_ticks : Nat)
    (note_state : List Nat) (q : List Emb) : Option (List Emb) :=
  match tick_delta_to_microseconds tempo PPQN delta_ticks with
  | none => none
  | some upsample_time =>
    let num_embeddings := upsample_time * sample_rate / 1000000
    if num_embeddings - 1 = 0 then some q
    else
      match mk_embedding note_state channels with
      | none => none
      | some e => some (q ++ List.replicate (num_embeddings - 1) e)

/-- NoteOn handling of the note state in `upsample`:
`note_state.append(event_data[0])`, an unconditional append. -/
def noteOnApply (note_state : List Nat) (nid : Nat) : List Nat :=
  note_state ++ [nid]

/-- NoteOff handling of the note state in `upsample`:
`if event_data[0] in note_state: note_state.remove(event_data[0])`, removing
the first occurrence when present and doing nothing otherwise. -/
def noteOffApply (note_state : List Nat) (nid : Nat) : List Nat :=
  if nid ∈ note_state then note_state.erase nid else note_state

/-- Loop guard `current_time < end_time` of `upsample`; `none` stands for
`end_time = float('inf')`. -/
def timeLt (currentTime : Nat) : Option Nat → Bool
  | none => true
  | some e => currentTime < e

/-- Condition of the EndOfTrack warning branch in `upsample`:
`(end_time - current_time) > (self.PPQN / 2)`. With `end_time = inf` the
difference is infinite and the comparison is true. -/
def eotWarn (endTime : Option Nat) (currentTime PPQN : Nat) : Bool :=
  match endTime with
  | none => true
  | some e => PPQN / 2 < e - currentTime

/-- Event dispatch of `upsample` for every event kind except EndOfTrack
(which breaks the loop and is handled by the loop itself): returns the new
note state, the new tempo, and the new queue contents, or `none` when
`enq_embeddings` raises. Events with a nonzero tick delta first enqueue the
embeddings spanned by the delta at the pre-event note state and the old
tempo; SetTempo then updates the tempo; unrecognised events only print. -/
def dispatch (tempo PPQN sample_rate channels : Nat) (ev : MidiEvent)
    (note_state : List Nat) (q : List Emb) : Option (List Nat × Nat × List Emb) :=
  match ev with
  | .noteOn dt nid =>
      if dt = 0 then some (noteOnApply note_state nid, tempo, q)
      else (enq_embeddings tempo PPQN sample_rate channels dt note_state q).map
        (fun q2 => (noteOnApply note_state nid, tempo, q2))
  | .noteOff dt nid =>
      if dt = 0 then some (noteOffApply note_state nid, tempo, q)
      else (enq_embeddings tempo PPQN sample_rate channels dt note_state q).map
        (fun q2 => (noteOffApply note_state nid, tempo, q2))
  | .setTempo dt d0 d1 d2 =>
      if dt = 0 then some (note_state, tempoOfBytes d0 d1 d2, q)
      else (enq_embeddings tempo PPQN sample_rate channels dt note_state q).map
        (fun q2 => (note_state, tempoOfBytes d0 d1 d2, q2))
  | .endOfTrack _ => some (note_state, tempo, q)
  | .other _ => some (note_state, tempo, q)

/-- Result of the event loop of `upsample`: the saved track pointer
(`self.first_note_index = counter`), the tempo after any SetTempo events,
the queue contents, and whether the EndOfTrack warning branch was taken. -/
structure LoopOut where
  counter : Nat
  tempo : Nat
  q : List Emb
  warned : Bool
deriving DecidableEq, Repr

/-- Event loop of `MidiMapper.upsample` (`while current_time < end_time`).
Each iteration reads `midi_track[counter]` (an index error past the end of
the track), breaks on EndOfTrack (taking the warning branch per `eotWarn`),
otherwise dispatches the event, then advances `current_time` by the tick
delta converted at `self.tempo` as it stands after the dispatch (for a
SetTempo event this is already the new tempo), and increments `counter` only
while `current_time` remains below `end_time`. `fuel` bounds the recursion;
`track.length + 1` always suffices since `counter` grows by one per
iteration. -/
def upsampleLoop (track : List MidiEvent) (PPQN sample_rate channels : Nat)
    (endTime : Option Nat) :
    Nat → Nat → Nat → Nat → List Nat → List Emb → Option LoopOut
  | 0, _, _, _, _, _ => none
  | fuel + 1, counter, currentTime, tempo, note_state, q =>
    if timeLt currentTime endTime then
      match track.get? counter with
      | none => none
      | some (.endOfTrack _) =>
          some { counter := counter, tempo := tempo, q := q
                 warned := eotWarn endTime currentTime PPQN }
      | some ev =>
        match dispatch tempo PPQN sample_rate channels ev note_state q with
        | none => none
        | some (ns2, tempo2, q2) =>
          match tick_delta_to_microseconds tempo2 PPQN ev.tick with
          | none => none
          | some dt =>
            let t2 := currentTime + dt
            if timeLt t2 endTime then
              upsampleLoop track PPQN sample_rate channels endTime
                fuel (counter + 1) t2 tempo2 ns2 q2
            else
              some { counter := counter, tempo := tempo2, q := q2, warned := false }
    else
      some { counter := counter, tempo := tempo, q := q, warned := false }

/-- `MidiMapper.upsample(start_sample, end_sample)`: run the event loop on
the first track of the stored pattern from the saved `first_note_index` with
a fresh empty note state, starting from `current_time` computed from
`max(0, start_sample)` and ending at `end_time` computed from `end_sample`
(`none` means unbounded, `float('inf')`). Afterwards drain
`qsize - 1` elements of the queue into a zero-initialised vector of `qsize`
rows (so the last row stays zero and one element remains queued), prepend
`|start_sample|` zero rows when `start_sample < 0`, persist `counter`,
`tempo` and the leftover queue into the mapper, and return the vector, the
new mapper state, and whether the EndOfTrack warning fired. -/
def MidiMapper.upsample (m : Mapper) (start_sample : Int) (end_sample : Option Nat) :
    Option (List Emb × Mapper × Bool) :=
  match m.midi.tracks.get? 0 with
  | none => none
  | some track =>
    match sample_to_microseconds m.sample_rate (max 0 start_sample).toNat with
    | none => none
    | some currentTime =>
      match (match end_sample with
             | none => some none
             | some e => (sample_to_microseconds m.sample_rate e).map some) with
      | none => none
      | some endTime =>
        match upsampleLoop track m.PPQN m.sample_rate m.lc_channels endTime
            (track.length + 1) m.first_note_index currentTime m.tempo [] m.q with
        | none => none
        | some out =>
          let num := out.q.length
          let vec := if num = 0 then [] else out.q.take (num - 1) ++ [zeroEmb m.lc_channels]
          let residue := out.q.drop (num - 1)
          let vec2 := if start_sample < 0 then
              List.replicate start_sample.natAbs (zeroEmb m.lc_channels) ++ vec
            else vec
          some (vec2,
                { m with tempo := out.tempo, first_note_index := out.counter, q := residue },
                out.warned)

/-- Python list slice `l[0 : stop : 1]` where `stop` may be negative
(counting from the end) and is clamped to the list bounds. -/
def pySliceStop (l : List Emb) (stop : Int) : List Emb :=
  l.take (if stop < 0 then ((l.length : Int) + stop).toNat else stop.toNat)

/-- Length alignment applied per chunk in the sample-size branch of
`LCAudioReader.input_stream` (lines 283-288): with
`delta_len = len(piece) - len(lc_embeddings_chunk)`, right-pad with zero
embeddings when positive, and when negative truncate with
`lc_embeddings_chunk[0 : len(lc_embeddings_chunk) + delta_len : 1]`. -/
def alignChunk (pieceLen : Nat) (lc : List Emb) (channels : Nat) : List Emb :=
  let delta : Int := (pieceLen : Int) - lc.length
  if 0 < delta then lc ++ List.replicate delta.toNat (zeroEmb channels)
  else if delta < 0 then pySliceStop lc ((lc.length : Int) + delta)
  else lc

/-- Length alignment applied to the whole file in the else branch of
`LCAudioReader.input_stream` (lines 322-327): with
`delta_len = len(audio) - len(lc_encode)`, right-pad with zero embeddings
when positive, and when negative truncate with
`lc_encode[0 : len(lc_encode) + delta_len - 1 : 1]`. -/
def alignWhole (audioLen : Nat) (lc : List Emb) (channels : Nat) : List Emb :=
  let delta : Int := (audioLen : Int) - lc.length
  if 0 < delta then lc ++ List.replicate delta.toNat (zeroEmb channels)
  else if delta < 0 then pySliceStop lc ((lc.length : Int) + delta - 1)
  else lc

/-- Indicator embedding: 1 at each channel index that occurs in the note
state, 0 elsewhere; the intended content of one emitted embedding. -/
def indicatorEmb (note_state : List Nat) (channels : Nat) : Emb :=
  (List.range channels).map (fun c => if c ∈ note_state then 1 else 0)

/-- Modelled from the spec (section 4.1): `half_beat_gap(tempo, resolution) =
ticks_to_time(resolution, tempo, resolution) / 2`, the end-of-track
alignment tolerance in microseconds claimed by the spec. -/
def spec_half_beat_gap (tempo resolution : Nat) : Nat :=
  tempo * resolution / resolution / 2

/-- Modelled from the spec (section 4.3): the claimed per-delta emission
count `round(time_delta * sample_rate / 1_000_000)` with
`time_delta = tempo * delta_ticks / resolution` computed exactly, i.e. the
nearest integer to the rational `tempo * delta_ticks * sample_rate /
(resolution * 1_000_000)` (ties rounded down). -/
def spec_num_embeddings (tempo resolution sample_rate delta_ticks : Nat) : Nat :=
  (2 * (tempo * delta_ticks) * sample_rate + resolution * 1000000) /
    (2 * (resolution * 1000000))

/-! Helper lemmas about the embedding-construction loop and the metadata
scan. -/

/-- Membership is invariant under the rotated traversal order of the inner
loop of `enq_embeddings`. -/
theorem mem_pyRotate {x : Nat} {l : List Nat} : x ∈ pyRotate l ↔ x ∈ l := by
  cases l with
  | nil => simp [pyRotate]
  | cons y ys =>
    have hne : y :: ys ≠ [] := by simp
    rw [pyRotate, List.getLast?_eq_getLast_of_ne_nil hne]
    conv_rhs => rw [← List.dropLast_append_getLast hne]
    simp [List.mem_append, or_comm]

/-- The rotated traversal order of the inner loop of `enq_embeddings` is a
permutation of the note state: every element is visited exactly once. -/
theorem pyRotate_perm (l : List Nat) : List.Perm (pyRotate l) l := by
  cases l with
  | nil => simp [pyRotate]
  | cons y ys =>
    have hne : y :: ys ≠ [] := by simp
    rw [pyRotate, List.getLast?_eq_getLast_of_ne_nil hne]
    conv_rhs => rw [← List.dropLast_append_getLast hne]
    exact (List.perm_append_singleton _ _).symm

/-- When every visited index is in range, the monadic index-setting fold
succeeds and equals the corresponding pure fold. -/
theorem foldlM_setIdx_some : ∀ (ids : List Nat) (emb : Emb),
    (∀ i ∈ ids, i < emb.length) →
    ids.foldlM setIdx emb = some (ids.foldl (fun e i => e.set i 1) emb)
  | [], _, _ => rfl
  | i :: ids, emb, h => by
    have hi : i < emb.length := h i (List.mem_cons_self _ _)
    have hrec := foldlM_setIdx_some ids (emb.set i 1)
      (fun j hj => by rw [List.length_set]; exact h j (List.mem_cons_of_mem _ hj))
    simp only [List.foldlM_cons, List.foldl_cons, setIdx, if_pos hi]
    simpa using hrec

/-- When some visited index is out of range, the monadic index-setting fold
raises (`none`). -/
theorem foldlM_setIdx_none : ∀ (ids : List Nat) (emb : Emb),
    (∃ i ∈ ids, emb.length ≤ i) → ids.foldlM setIdx emb = none
  | [], _, h => by simp at h
  | i :: ids, emb, h => by
    by_cases hi : i < emb.length
    · obtain ⟨j, hj, hlen⟩ := h
      have hj2 : j ∈ ids := by
        cases List.mem_cons.mp hj with
        | inl he => exact absurd hlen (by rw [he]; exact Nat.not_le_of_lt hi)
        | inr hj2 => exact hj2
      have hrec := foldlM_setIdx_none ids (emb.set i 1)
        ⟨j, hj2, by rw [List.length_set]; exact hlen⟩
      simp only [List.foldlM_cons, setIdx, if_pos hi]
      simpa using hrec
    · simp only [List.foldlM_cons, setIdx, if_neg hi]
      simp

/-- Pointwise description of the pure index-setting fold: 1 at the visited
indices, the original entry elsewhere. -/
theorem foldl_set_getElem? : ∀ (ids : List Nat) (emb : Emb),
    (∀ i ∈ ids, i < emb.length) → ∀ c : Nat,
    (ids.foldl (fun e i => e.set i 1) emb)[c]? = if c ∈ ids then some 1 else emb[c]?
  | [], _, _, _ => by simp
  | i :: ids, emb, h, c => by
    have hi : i < emb.length := h i (List.mem_cons_self _ _)
    rw [List.foldl_cons]
    rw [foldl_set_getElem? ids (emb.set i 1)
      (fun j hj => by rw [List.length_set]; exact h j (List.mem_cons_of_mem _ hj)) c]
    by_cases hc : c ∈ ids
    · simp [hc, List.mem_cons]
    · by_cases hci : c = i
      · subst hci
        simp [hc, List.getElem?_set_self hi, List.mem_cons]
      · simp [hc, hci, List.getElem?_set_ne (fun hh => hci hh.symm), List.mem_cons]

/-- Pointwise description of `indicatorEmb`. -/
theorem indicatorEmb_getElem? (state : List Nat) (channels c : Nat) :
    (indicatorEmb state channels)[c]? =
      if c < channels then some (if c ∈ state then 1 else 0) else none := by
  by_cases h : c < channels
  · simp [indicatorEmb, List.getElem?_map, List.getElem?_range h, h]
  · rw [indicatorEmb, List.getElem?_eq_none (by simpa using Nat.le_of_not_lt h)]
    simp [h]

/-- When every note id is below the channel count, the embedding built by
the inner loop of `enq_embeddings` is exactly the indicator vector of the
note state. -/
theorem mk_embedding_eq_indicator (state : List Nat) (channels : Nat)
    (h : ∀ id ∈ state, id < channels) :
    mk_embedding state channels = some (indicatorEmb state channels) := by
  have hrot : ∀ i ∈ pyRotate state, i < (zeroEmb channels).length := by
    intro i hi
    rw [zeroEmb, List.length_replicate]
    exact h i (mem_pyRotate.mp hi)
  rw [mk_embedding, foldlM_setIdx_some _ _ hrot]
  congr 1
  apply List.ext_getElem?
  intro c
  rw [foldl_set_getElem? _ _ hrot c, indicatorEmb_getElem?]
  by_cases hc : c ∈ state
  · simp [mem_pyRotate, hc, h c hc]
  · by_cases hlt : c < channels
    · simp [mem_pyRotate, hc, hlt, zeroEmb, List.getElem?_replicate]
    · simp [mem_pyRotate, hc, hlt, zeroEmb, List.getElem?_replicate]

/-- A track without any NoteOn event makes the metadata scan of
`update_midi_metadata` run past the end of the track and raise, for every
amount of fuel, start index and tempo accumulator. -/
theorem update_midi_metadata_scan_none :
    ∀ (fuel : Nat) (track : List MidiEvent) (i : Nat) (tacc : Option Nat),
    (∀ e ∈ track, e.isNoteOn = false) →
    update_midi_metadata_scan fuel track i tacc = none
  | 0, _, _, _, _ => rfl
  | fuel + 1, track, i, tacc, h => by
    cases hg : track[i]? with
    | none => simp [update_midi_metadata_scan, hg]
    | some ev =>
      have hev := h ev (@List.get?_mem _ track i ev (by simp [hg]))
      cases ev with
      | noteOn t n => simp [MidiEvent.isNoteOn] at hev
      | noteOff t n =>
          simp only [update_midi_metadata_scan, List.get?_eq_getElem?, hg]
          exact update_midi_metadata_scan_none fuel track (i + 1) tacc h
      | setTempo t d0 d1 d2 =>
          simp only [update_midi_metadata_scan, List.get?_eq_getElem?, hg]
          exact update_midi_metadata_scan_none fuel track (i + 1) _ h
      | endOfTrack t =>
          simp only [update_midi_metadata_scan, List.get?_eq_getElem?, hg]
          exact update_midi_metadata_scan_none fuel track (i + 1) tacc h
      | other t =>
          simp only [update_midi_metadata_scan, List.get?_eq_getElem?, hg]
          exact update_midi_metadata_scan_none fuel track (i + 1) tacc h

/-! Concrete timelines used to evaluate the engine. All of them use
`sample_rate = 1000000` (so one audio sample lasts exactly one microsecond
and the per-call arithmetic stays small) except where noted, small channel
counts, and an initial SetTempo event whose bytes encode a tempo of 2
microseconds per beat at resolution 1, so that one tick lasts exactly 2
microseconds. -/

/-- Timeline with a NoteOn of id 1 at delta 0, a NoteOn of id 2 after 2
ticks (4 microseconds, i.e. 4 samples), and EndOfTrack. -/
def patA : MidiPattern :=
  { resolution := 1
    tracks := [[.setTempo 0 0 0 2, .noteOn 0 1, .noteOn 2 2, .endOfTrack 0]] }

/-- Timeline containing a duplicate NoteOn: id 1 is activated twice at delta
0, then deactivated once after 1 tick, then id 2 is toggled. -/
def patDup : MidiPattern :=
  { resolution := 1
    tracks := [[.setTempo 0 0 0 2, .noteOn 0 1, .noteOn 0 1, .noteOff 1 1,
                .noteOn 1 2, .noteOff 1 2, .endOfTrack 0]] }

/-- The same timeline as `patDup` without the duplicate NoteOn of id 1. -/
def patNoDup : MidiPattern :=
  { resolution := 1
    tracks := [[.setTempo 0 0 0 2, .noteOn 0 1, .noteOff 1 1,
                .noteOn 1 2, .noteOff 1 2, .endOfTrack 0]] }

/-- Timeline at resolution 480 with the default tempo (500000 microseconds
per beat): a NoteOn at delta 0 followed immediately by EndOfTrack. -/
def pat5 : MidiPattern :=
  { resolution := 480, tracks := [[.noteOn 0 60, .endOfTrack 0]] }

/-- Malformed timeline: a SetTempo event whose three data bytes are all 0
(tempo = 0 microseconds per beat) before the first NoteOn, in a pattern
whose resolution is 0. -/
def pat8 : MidiPattern :=
  { resolution := 0
    tracks := [[.setTempo 0 0 0 0, .noteOn 0 1, .noteOn 1 2, .endOfTrack 0]] }

/-- Mapper state after `set_midi patA` followed by `upsample(0, 3)`: the
saved track pointer rests on the overshooting NoteOn event and one emitted
embedding is still queued. -/
def mapperAfterChunk1 : Mapper :=
  { sample_rate := 1000000, lc_channels := 3, tempo := 2, PPQN := 1,
    first_note_index := 2, q := [[0, 1, 0]], midi := patA }

set_option maxRecDepth 100000

/-- C1. The claimed resumability fails on the code: on `patA` (one note
activated at time 0, a second after 4 samples, end of track after 6
samples), splitting `upsample(0, 6)` as `upsample(0, 3)` then
`upsample(3, 6)` on the same mapper yields 7 embeddings — the second call
restarts with an empty note state, reprocesses the event that overshot the
first call's range, and flushes the queue residue — while the single call
yields 3; the concatenation is not the single call's output. -/
theorem c1_resumability_fails :
    ((MidiMapper.set_midi (MidiMapper.init 1000000 3) patA).bind
       (fun m => (MidiMapper.upsample m 0 (some 3)).bind
         (fun r1 => (MidiMapper.upsample r1.2.1 3 (some 6)).map
           (fun r2 => r1.1 ++ r2.1)))) =
      some [[0, 1, 0], [0, 1, 0], [0, 0, 0], [0, 1, 0], [0, 0, 0], [0, 0, 0], [0, 0, 0]] ∧
    ((MidiMapper.set_midi (MidiMapper.init 1000000 3) patA).bind
       (fun m => (MidiMapper.upsample m 0 (some 6)).map (fun r => r.1))) =
      some [[0, 1, 0], [0, 1, 0], [0, 0, 0]] ∧
    ((MidiMapper.set_midi (MidiMapper.init 1000000 3) patA).bind
       (fun m => (MidiMapper.upsample m 0 (some 3)).bind
         (fun r1 => (MidiMapper.upsample r1.2.1 3 (some 6)).map
           (fun r2 => r1.1 ++ r2.1)))) ≠
      ((MidiMapper.set_midi (MidiMapper.init 1000000 3) patA).bind
       (fun m => (MidiMapper.upsample m 0 (some 6)).map (fun r => r.1))) := by
  refine ⟨by decide, by decide, by decide⟩

/-- C2 counterexample. With tempo 2, resolution 1, sample rate 1000000 and a
delta of 2 ticks (4 microseconds = 4 samples exactly), the claim predicts
`round(4 * 1000000 / 1000000) = 4` emitted embeddings, but `enq_embeddings`
emits 3 (`range(num_embeddings - 1)`). -/
theorem c2_counterexample :
    (enq_embeddings 2 1 1000000 3 2 [] []).map List.length = some 3 ∧
    spec_num_embeddings 2 1 1000000 2 = 4 := by
  refine ⟨by decide, by decide⟩

/-- C2 amended. For a nonzero (indeed any) tick delta, `enq_embeddings`
appends `n - 1` embeddings (none when `n = 0`), where
`n = ((tempo * delta_ticks) / PPQN) * sample_rate / 1000000` under floor
division — not `round(...)` — and each appended embedding is the indicator
vector of the pre-event note state it was given. -/
theorem c2_emission_count (tempo PPQN sample_rate channels delta_ticks : Nat)
    (note_state : List Nat) (q : List Emb)
    (hp : 0 < PPQN) (hids : ∀ id ∈ note_state, id < channels) :
    enq_embeddings tempo PPQN sample_rate channels delta_ticks note_state q =
      some (q ++ List.replicate (tempo * delta_ticks / PPQN * sample_rate / 1000000 - 1)
        (indicatorEmb note_state channels)) := by
  have hne : PPQN ≠ 0 := Nat.pos_iff_ne_zero.mp hp
  by_cases h0 : tempo * delta_ticks / PPQN * sample_rate / 1000000 - 1 = 0
  · simp [enq_embeddings, tick_delta_to_microseconds, pydiv, hne, h0]
  · simp [enq_embeddings, tick_delta_to_microseconds, pydiv, hne, h0,
      mk_embedding_eq_indicator note_state channels hids]

theorem c2_emission_count_witness :
    enq_embeddings 2 1 1000000 3 2 [1] [] =
      some ([] ++ List.replicate (2 * 2 / 1 * 1000000 / 1000000 - 1) (indicatorEmb [1] 3)) :=
  c2_emission_count 2 1 1000000 3 2 [1] [] (by decide) (by decide)

/-- C3 counterexample. Two timelines that differ only in a duplicate NoteOn
for the already-active id 1 produce different outputs: on `patDup` the first
NoteOff of id 1 removes only one copy, so id 1 stays observably active in a
later emitted embedding. Activating an already-active note therefore does
change observable output. -/
theorem c3_counterexample :
    ((MidiMapper.set_midi (MidiMapper.init 1000000 3) patDup).bind
       (fun m => (MidiMapper.upsample m 0 none).map (fun r => r.1))) ≠
    ((MidiMapper.set_midi (MidiMapper.init 1000000 3) patNoDup).bind
       (fun m => (MidiMapper.upsample m 0 none).map (fun r => r.1))) := by decide

/-- C3 amended. Deactivating an absent note is a no-op on the note state
(the NoteOff branch is a membership-guarded remove), but activating an
already-active note appends a duplicate id to the state, so that after one
matching NoteOff the id is still active. -/
theorem c3_note_toggling (note_state : List Nat) (nid : Nat) (h : nid ∉ note_state) :
    noteOffApply note_state nid = note_state ∧
    nid ∈ noteOffApply (noteOnApply (noteOnApply note_state nid) nid) nid := by
  constructor
  · rw [noteOffApply, if_neg h]
  · rw [noteOnApply, noteOnApply, noteOffApply, if_pos (by simp), List.append_assoc,
      List.erase_append_right _ h]
    simp

theorem c3_note_toggling_witness :
    noteOffApply [7] 3 = [7] ∧
    3 ∈ noteOffApply (noteOnApply (noteOnApply [7] 3) 3) 3 :=
  c3_note_toggling [7] 3 (by decide)

/-- C4 counterexample. With note state `[5]` and 3 channels, an event delta
spanning 4 samples makes `enq_embeddings` raise an `IndexError` (`none`):
no embedding is produced at all, rather than the out-of-range id being
ignored. -/
theorem c4_counterexample :
    enq_embeddings 2 1 1000000 3 2 [5] [] = none := by decide

/-- C4 amended. Whenever the note state contains an id at or above the
channel count, building an embedding raises an index error (aborting the
upsample) instead of ignoring the id; the embedding is not produced. -/
theorem c4_out_of_range_raises (note_state : List Nat) (channels nid : Nat)
    (h1 : nid ∈ note_state) (h2 : channels ≤ nid) :
    mk_embedding note_state channels = none := by
  rw [mk_embedding]
  exact foldlM_setIdx_none _ _
    ⟨nid, mem_pyRotate.mpr h1, by rw [zeroEmb, List.length_replicate]; exact h2⟩

theorem c4_out_of_range_raises_witness : mk_embedding [5] 3 = none :=
  c4_out_of_range_raises [5] 3 5 (by decide) (by decide)

/-- C5. On `pat5` (resolution 480, default tempo 500000, NoteOn then
EndOfTrack) with a requested range of 100000 samples at one microsecond per
sample, the remaining gap at EndOfTrack is 100000 microseconds. The code
takes the warning branch, because it compares the gap against
`PPQN / 2 = 240` (a tick count, not a duration), although the gap is well
inside the claimed tolerance `half_beat_gap = tempo / 2 = 250000`
microseconds; the claimed tolerance is not the one the code uses. -/
theorem c5_eot_tolerance :
    ((MidiMapper.set_midi (MidiMapper.init 1000000 128) pat5).bind
       (fun m => (MidiMapper.upsample m 0 (some 100000)).map (fun r => r.2.2))) =
      some true ∧
    eotWarn (some 100000) 0 480 = true ∧
    spec_half_beat_gap 500000 480 = 250000 ∧
    100000 ≤ spec_half_beat_gap 500000 480 ∧
    (480 : Nat) / 2 = 240 := by
  refine ⟨by decide, by decide, by decide, by decide, by decide⟩

/-- C6. The whole-file alignment branch truncates to `N - 1`, not `N`: with
audio length 1 and two embeddings, `alignWhole` returns the empty list
(length 0, not 1), while the per-chunk branch `alignChunk` truncates to
exactly the first `N` embeddings, and right-padding to length `N` works in
the whole-file branch. -/
theorem c6_align_truncation :
    alignWhole 1 [zeroEmb 1, zeroEmb 1] 1 = [] ∧
    (alignWhole 1 [zeroEmb 1, zeroEmb 1] 1).length ≠ 1 ∧
    alignChunk 1 [zeroEmb 1, zeroEmb 1] 1 = [zeroEmb 1] ∧
    alignWhole 5 [zeroEmb 1] 1 =
      [zeroEmb 1, zeroEmb 1, zeroEmb 1, zeroEmb 1, zeroEmb 1] := by
  refine ⟨by decide, by decide, by decide, by decide⟩

/-- C7. `upsample` is not residue-free: after `set_midi patA` and
`upsample(0, 3)` the mapper state is `mapperAfterChunk1`, whose internal
queue still holds one emitted embedding (the drain loop runs
`range(qsize - 1)` times); and the output of the next call depends on that
residue — the same call on the same mapper with an emptied queue returns a
different embedding sequence. -/
theorem c7_queue_residue :
    ((MidiMapper.set_midi (MidiMapper.init 1000000 3) patA).bind
       (fun m => (MidiMapper.upsample m 0 (some 3)).map (fun r => r.2.1))) =
      some mapperAfterChunk1 ∧
    mapperAfterChunk1.q ≠ [] ∧
    (MidiMapper.upsample mapperAfterChunk1 3 (some 6)).map (fun r => r.1) ≠
      (MidiMapper.upsample { mapperAfterChunk1 with q := [] } 3 (some 6)).map
        (fun r => r.1) := by
  refine ⟨by decide, by decide, by decide⟩

/-- C8 counterexample. `set_midi` on the malformed timeline `pat8` (tempo
bytes all zero before the first NoteOn, resolution 0) does not fail: the
timeline is accepted at construction time, refuting the claimed typed
failure. -/
theorem c8_counterexample :
    MidiMapper.set_midi (MidiMapper.init 1000000 128) pat8 ≠ none := by decide

/-- C8 amended. Construction performs no validation: `set_midi pat8`
succeeds and stores tempo 0 and resolution 0, and the division by zero only
surfaces later, in the upsampling arithmetic of the first event's tick
delta (`upsample` raises `ZeroDivisionError`, modelled as `none`). -/
theorem c8_no_validation :
    ((MidiMapper.set_midi (MidiMapper.init 1000000 128) pat8).map
       (fun m => (m.tempo, m.PPQN))) = some (0, 0) ∧
    ((MidiMapper.set_midi (MidiMapper.init 1000000 128) pat8).bind
       (fun m => MidiMapper.upsample m 0 (some 10))) = none := by
  refine ⟨by decide, by decide⟩

/-- C9. When every active id is below the channel count, the inner loop of
`enq_embeddings` visits every element of the note state exactly once (its
rotated traversal is a permutation of the state) and the embedding it
builds is exactly the indicator vector: 1 at each active id's index, 0 at
every other channel. -/
theorem c9_embedding_indicator (note_state : List Nat) (channels : Nat)
    (h : ∀ id ∈ note_state, id < channels) :
    List.Perm (pyRotate note_state) note_state ∧
    mk_embedding note_state channels = some (indicatorEmb note_state channels) :=
  ⟨pyRotate_perm note_state, mk_embedding_eq_indicator note_state channels h⟩

theorem c9_embedding_indicator_witness :
    List.Perm (pyRotate [0, 2]) [0, 2] ∧
    mk_embedding [0, 2] 3 = some (indicatorEmb [0, 2] 3) :=
  c9_embedding_indicator [0, 2] 3 (by decide)

/-- C10. A first track with no NoteOn event at all makes `set_midi` fail
with an out-of-range error instead of returning normally: the metadata scan
advances past the end of the track looking for the first NoteOn, for every
mapper state, resolution and such track. -/
theorem c10_missing_noteon_error (m : Mapper) (res : Nat) (track : List MidiEvent)
    (h : ∀ e ∈ track, e.isNoteOn = false) :
    MidiMapper.set_midi m { resolution := res, tracks := [track] } = none := by
  rw [MidiMapper.set_midi]
  simp only [List.get?]
  rw [update_midi_metadata_scan_none _ _ _ _ h]

theorem c10_missing_noteon_error_witness :
    MidiMapper.set_midi (MidiMapper.init 16000 128)
      { resolution := 480, tracks := [[MidiEvent.endOfTrack 0]] } = none :=
  c10_missing_noteon_error (MidiMapper.init 16000 128) 480 [MidiEvent.endOfTrack 0]
    (by decide)
